import Mathlib

/-!
Verification of the RAG chatbot pipeline (`mi_chatbot_rag`).

Shallow embedding of the three core modules:
`src/chatbot.py` (RagChatbot), `src/indexer.py` (DocumentIndexer) and
`src/retriever.py` (InformationRetriever).  External collaborators
(the OpenAI LLM, the llama_index query engine, the filesystem and the
persisted storage backend) are modelled as explicit oracles passed to the
functions that call them; a call that can raise returns `Except`.
Mutable object state (`self`) is threaded explicitly: a method that can
mutate its object returns the post state next to its result.
-/

namespace MiChatbotRag

/-- Error raised by a provider call (retrieval query or LLM completion);
mirrors the Python exceptions that `retrieve_information` or `llm.complete`
may raise and that `RagChatbot.chat` does not catch. -/
inductive ProviderError where
  | failure (msg : String)
deriving DecidableEq

/-- A chat message as stored in the memory buffer: role and content
(`ChatMessage` of llama_index, used by chatbot.py only through its
`role` and `content` fields). -/
structure ChatMessage where
  role : String
  content : String
deriving DecidableEq

/-- The llama_index `ChatMemoryBuffer` as chatbot.py uses it: a token
limit fixed at construction and an ordered message list, with
`put` appending one message, `get_messages` returning the list and
`reset` emptying it.  The buffer is an external collaborator (it is not
part of this repository's sources); these are the operations the source
calls on it. -/
structure ChatMemoryBuffer where
  token_limit : Nat
  messages : List ChatMessage
deriving DecidableEq

/-- ChatMemoryBuffer.from_defaults(token_limit=...): fresh empty buffer. -/
def ChatMemoryBuffer.from_defaults (token_limit : Nat) : ChatMemoryBuffer :=
  { token_limit := token_limit, messages := [] }

/-- buffer.put(role, content): append one message, as called at
chatbot.py lines 80-81. -/
def ChatMemoryBuffer.put (buf : ChatMemoryBuffer) (role content : String) :
    ChatMemoryBuffer :=
  { buf with messages := buf.messages ++ [{ role := role, content := content }] }

/-- buffer.get_messages(): the stored messages, in order. -/
def ChatMemoryBuffer.get_messages (buf : ChatMemoryBuffer) : List ChatMessage :=
  buf.messages

/-- buffer.reset(): drop all messages. -/
def ChatMemoryBuffer.reset (buf : ChatMemoryBuffer) : ChatMemoryBuffer :=
  { buf with messages := [] }

/-- The system prompt literal assigned in RagChatbot.__init__
(chatbot.py lines 28-39). -/
def systemPromptText : String :=
  "\n        Eres un asistente útil y experto basado en RAG (Retrieval-Augmented Generation).\n        \n        Tu tarea es responder preguntas basándote únicamente en la información proporcionada \n        en tu contexto. No inventes información ni uses conocimiento que no esté en el contexto.\n        \n        Si no conoces la respuesta o la información no está en el contexto proporcionado, \n        indica amablemente que no tienes esa información y sugiere al usuario que reformule\n        su pregunta o proporcione más documentos con esa información.\n        \n        Utiliza un tono profesional y amigable. Organiza tus respuestas de forma clara y concisa.\n        "

/-- The mutable state of a `RagChatbot`: its memory buffer and its system
prompt.  The retriever and the LLM it holds are external collaborators,
passed as oracles to `chat`. -/
structure RagChatbot where
  chat_history : ChatMemoryBuffer
  system_prompt : String
deriving DecidableEq

/-- RagChatbot.__init__ (chatbot.py lines 16-42): a memory buffer with
token_limit 4096 and the fixed system prompt. -/
def RagChatbot.init : RagChatbot :=
  { chat_history := ChatMemoryBuffer.from_defaults 4096
    system_prompt := systemPromptText }

/-- RagChatbot._format_chat_history (chatbot.py lines 85-101): the
placeholder string when the history is empty, otherwise one role-labelled
line per message, joined by newlines. -/
def RagChatbot.format_chat_history (bot : RagChatbot) : String :=
  let messages := bot.chat_history.get_messages
  if messages.isEmpty then
    "No hay historial de chat previo."
  else
    String.intercalate "\n"
      (messages.map (fun msg =>
        (if msg.role == "user" then "Usuario" else "Asistente") ++ ": " ++ msg.content))

/-- The prompt f-string assembled in RagChatbot.chat
(chatbot.py lines 62-74). -/
def buildPrompt (system_prompt chat_history context user_input : String) : String :=
  "\n        " ++ system_prompt ++
  "\n        \n        Historial de la conversación:\n        " ++ chat_history ++
  "\n        \n        Contexto recuperado de los documentos:\n        " ++ context ++
  "\n        \n        Pregunta del usuario: " ++ user_input ++
  "\n        \n        Por favor, responde basándote únicamente en el contexto proporcionado.\n        "

/-- RagChatbot.chat (chatbot.py lines 44-83).  `retrieve` is the oracle
for `self.retriever.retrieve_information` (its result stringified, as
line 61 does) and `complete` the oracle for `self.llm.complete` (its
result stringified, as lines 81 and 83 do); either may raise.  The
history is updated only after both calls succeed (lines 80-81); an
exception propagates and leaves the state untouched. -/
def RagChatbot.chat (retrieve : String → Except ProviderError String)
    (complete : String → Except ProviderError String)
    (bot : RagChatbot) (user_input : String) :
    Except ProviderError String × RagChatbot :=
  match retrieve user_input with
  | Except.error e => (Except.error e, bot)
  | Except.ok retrieval_response =>
    let chat_history := bot.format_chat_history
    let context := retrieval_response
    let prompt := buildPrompt bot.system_prompt chat_history context user_input
    match complete prompt with
    | Except.error e => (Except.error e, bot)
    | Except.ok response =>
      let h1 := bot.chat_history.put "user" user_input
      let h2 := h1.put "assistant" response
      (Except.ok response, { bot with chat_history := h2 })

/-- One entry of the list RagChatbot.get_chat_history returns: a fresh
record with the message's role and content (chatbot.py line 111 builds a
new dict per message). -/
structure HistoryRecord where
  role : String
  content : String
deriving DecidableEq

/-- RagChatbot.get_chat_history (chatbot.py lines 103-111): a new list of
new records, one per stored message, in order; the object state is not
touched (returned unchanged as the second component). -/
def RagChatbot.get_chat_history (bot : RagChatbot) :
    List HistoryRecord × RagChatbot :=
  (bot.chat_history.get_messages.map
    (fun msg => { role := msg.role, content := msg.content }), bot)

/-- RagChatbot.clear_history (chatbot.py lines 113-117): reset the buffer. -/
def RagChatbot.clear_history (bot : RagChatbot) : RagChatbot :=
  { bot with chat_history := bot.chat_history.reset }

/-- Total token count of a message list under a token counter `tok`
(the tokenizer is the buffer's external collaborator). -/
def totalTokens (tok : ChatMessage → Nat) (msgs : List ChatMessage) : Nat :=
  (msgs.map tok).sum

/-- Modelled from the spec: the eviction policy of llama_index's
`ChatMemoryBuffer` is not part of this repository's sources (chatbot.py
only constructs the buffer with `token_limit=4096`); the spec says the
history is "bounded by a token budget — oldest turns are evicted first
when the budget is exceeded ... oldest turns are dropped until it fits".
Dropping from the front until the total fits the limit. -/
def evictOldest (tok : ChatMessage → Nat) (token_limit : Nat) :
    List ChatMessage → List ChatMessage
  | [] => []
  | msg :: rest =>
    if totalTokens tok (msg :: rest) ≤ token_limit then msg :: rest
    else evictOldest tok token_limit rest

/-- Modelled from the spec: appending one completed turn to the bounded
buffer — append, then evict oldest turns until the token budget fits. -/
def ChatMemoryBuffer.putBounded (tok : ChatMessage → Nat)
    (buf : ChatMemoryBuffer) (role content : String) : ChatMemoryBuffer :=
  { buf with
    messages :=
      evictOldest tok buf.token_limit
        (buf.messages ++ [{ role := role, content := content }]) }

/-- A document as produced by `SimpleDirectoryReader.load_data`; the
indexer never inspects it, so only its text is carried. -/
structure Document where
  text : String
deriving DecidableEq

/-- The llama_index `VectorStoreIndex`, opaque to this repository's code:
indexer.py only builds it, stores it in `self.index`, persists it and
loads it back, never inspecting its contents.  An abstract identifier
stands for the built index value. -/
structure VectorStoreIndex where
  id : Nat
deriving DecidableEq

/-- Errors raised by DocumentIndexer: FileNotFoundError (the spec's
NotFoundError), ValueError on an empty corpus (the spec's
EmptyCorpusError) and ValueError when saving with no index built. -/
inductive IndexError where
  | notFound (msg : String)
  | emptyCorpus (msg : String)
  | noIndex (msg : String)
deriving DecidableEq

/-- The mutable state of a `DocumentIndexer` (indexer.py lines 19-34):
the corpus directory, the index name and the optional built index
(`self.index`, initially None). -/
structure DocumentIndexer where
  data_dir : String
  index_name : String
  index : Option VectorStoreIndex
deriving DecidableEq

/-- DocumentIndexer.__init__ (indexer.py lines 19-34); the global
`Settings` assignments configure external collaborators and carry no
state the indexer reads back. -/
def DocumentIndexer.init (data_dir index_name : String) : DocumentIndexer :=
  { data_dir := data_dir, index_name := index_name, index := none }

/-- DocumentIndexer.load_documents (indexer.py lines 36-59).
`listDir` is the filesystem oracle: `none` when the directory does not
exist (`self.data_dir.exists()` false), otherwise the directory entries
(`self.data_dir.iterdir()`); `reader` is the oracle for
`SimpleDirectoryReader(...).load_data()`. -/
def DocumentIndexer.load_documents (listDir : String → Option (List String))
    (reader : String → List Document) (ix : DocumentIndexer) :
    Except IndexError (List Document) :=
  match listDir ix.data_dir with
  | none =>
    Except.error (IndexError.notFound
      ("El directorio " ++ ix.data_dir ++ " no existe"))
  | some entries =>
    if entries.isEmpty then
      Except.error (IndexError.emptyCorpus
        ("El directorio " ++ ix.data_dir ++ " está vacío. Por favor, añade documentos."))
    else
      Except.ok (reader ix.data_dir)

/-- DocumentIndexer.create_index (indexer.py lines 61-74).
`from_documents` is the oracle for `VectorStoreIndex.from_documents`.
An exception from `load_documents` propagates before the index is built,
leaving `self.index` untouched. -/
def DocumentIndexer.create_index (listDir : String → Option (List String))
    (reader : String → List Document)
    (from_documents : List Document → VectorStoreIndex)
    (ix : DocumentIndexer) :
    Except IndexError VectorStoreIndex × DocumentIndexer :=
  match ix.load_documents listDir reader with
  | Except.error e => (Except.error e, ix)
  | Except.ok documents =>
    let index := from_documents documents
    (Except.ok index, { ix with index := some index })

/-- The on-disk state the persistence layer sees: the set of existing
directories and, per persist call, the record of which index was written
under which directory. -/
structure Storage where
  dirs : List String
  stores : List (String × VectorStoreIndex)
deriving DecidableEq

/-- DocumentIndexer.save_index (indexer.py lines 76-94): raise ValueError
when `self.index` is unset, writing nothing; otherwise create the persist
directory if needed (`mkdir(parents=True, exist_ok=True)`) and persist
the index under it. -/
def DocumentIndexer.save_index (ix : DocumentIndexer) (persist_dir : String)
    (st : Storage) : Except IndexError Unit × Storage :=
  match ix.index with
  | none =>
    (Except.error (IndexError.noIndex
      "No hay un índice para guardar. Ejecuta create_index primero."), st)
  | some index =>
    let st1 :=
      if persist_dir ∈ st.dirs then st
      else { st with dirs := st.dirs ++ [persist_dir] }
    (Except.ok (), { st1 with stores := st1.stores ++ [(persist_dir, index)] })

/-- DocumentIndexer.load_index (indexer.py lines 96-121).  `pathExists`
is the oracle for `persist_path.exists()` and `loadFromStorage` the
oracle for `StorageContext.from_defaults` + `load_index_from_storage`.
A missing path raises FileNotFoundError before anything is loaded;
otherwise the loaded index is stored whole in `self.index` and returned. -/
def DocumentIndexer.load_index (pathExists : String → Bool)
    (loadFromStorage : String → VectorStoreIndex)
    (ix : DocumentIndexer) (persist_dir : String) :
    Except IndexError VectorStoreIndex × DocumentIndexer :=
  if pathExists persist_dir then
    let index := loadFromStorage persist_dir
    (Except.ok index, { ix with index := some index })
  else
    (Except.error (IndexError.notFound
      ("No se encontró ningún índice en " ++ persist_dir)), ix)

/-- The chatbot-construction flow of streamlit_app.py lines 172-188 (and
app.py lines 45-61): build an indexer, load the persisted index, and only
on success construct the retriever and the `RagChatbot`; a
FileNotFoundError from `load_index` is caught and leaves the session's
chatbot unset (`st.session_state.chatbot` stays None). -/
def load_chatbot (pathExists : String → Bool)
    (loadFromStorage : String → VectorStoreIndex)
    (data_dir persist_dir : String) : Option RagChatbot :=
  let indexer := DocumentIndexer.init data_dir "llamaindex_chatbot"
  match (indexer.load_index pathExists loadFromStorage persist_dir).1 with
  | Except.error _ => none
  | Except.ok _ => some RagChatbot.init

/-- One node as `VectorIndexRetriever.retrieve` returns it, as used by
`get_retrieval_context`: an optional similarity score (`node.score` when
the attribute exists, None otherwise) and the chunk text.  The score's
numeric type is abstract — the code only copies it. -/
structure NodeWithScore (α : Type) where
  score : Option α
  text : String
deriving DecidableEq

/-- One entry of the debug summary built at retriever.py lines 94-100. -/
structure NodeSummary (α : Type) where
  score : Option α
  text_preview : String
deriving DecidableEq

/-- The dictionary returned by `get_retrieval_context`
(retriever.py lines 92-101). -/
structure RetrievalContext (α : Type) where
  num_nodes_retrieved : Nat
  nodes_summary : List (NodeSummary α)
deriving DecidableEq

/-- InformationRetriever.get_retrieval_context (retriever.py lines
75-103).  `retrieve_nodes` is the oracle for `self.retriever.retrieve`
(the retriever is always configured by `_setup_retriever` in __init__,
so the guard at line 85 never fires).  Per node: the score, and the
preview `node.text[:100] + "..." if len(node.text) > 100 else node.text`. -/
def get_retrieval_context {α : Type}
    (retrieve_nodes : String → List (NodeWithScore α)) (query_text : String) :
    RetrievalContext α :=
  let nodes := retrieve_nodes query_text
  { num_nodes_retrieved := nodes.length
    nodes_summary :=
      nodes.map (fun node =>
        { score := node.score
          text_preview :=
            if node.text.length > 100 then node.text.take 100 ++ "..."
            else node.text }) }

/-! ## Theorems -/

/-- Every suffix of the evicted list survives: eviction only drops a
prefix, i.e. the result is a suffix of the input. -/
theorem evictOldest_suffix (tok : ChatMessage → Nat) (k : Nat) :
    ∀ l : List ChatMessage, List.IsSuffix (evictOldest tok k l) l
  | [] => List.suffix_refl []
  | msg :: rest => by
    unfold evictOldest
    split
    · exact List.suffix_refl _
    · exact (evictOldest_suffix tok k rest).trans (List.suffix_cons msg rest)

/-- After eviction the total token count fits the limit. -/
theorem evictOldest_fits (tok : ChatMessage → Nat) (k : Nat) :
    ∀ l : List ChatMessage, totalTokens tok (evictOldest tok k l) ≤ k
  | [] => by simp [evictOldest, totalTokens]
  | msg :: rest => by
    unfold evictOldest
    split
    next h => exact h
    next h => exact evictOldest_fits tok k rest

/-- Eviction is minimal: any suffix of the input that fits the limit is
no longer than the evicted result (so eviction stops as soon as the
history fits). -/
theorem evictOldest_longest (tok : ChatMessage → Nat) (k : Nat) :
    ∀ l s, List.IsSuffix s l → totalTokens tok s ≤ k →
      s.length ≤ (evictOldest tok k l).length
  | [], s, hs, _ => by
    simp [List.suffix_nil.mp hs, evictOldest]
  | msg :: rest, s, hs, ht => by
    unfold evictOldest
    split
    next hfits => exact hs.length_le
    next hnot =>
      rcases List.suffix_cons_iff.mp hs with rfl | hsuf
      · exact absurd ht hnot
      · exact evictOldest_longest tok k rest s hsuf ht

/-- C1: when the retrieval call and the LLM completion both succeed,
`chat` appends the turn {user, user_input} and then the turn
{assistant, response} to the chat history — increasing the history length
by exactly 2 — and returns the response text to the caller. -/
theorem chat_success_appends_two_turns
    (retrieve complete : String → Except ProviderError String)
    (bot : RagChatbot) (user_input ctx response : String)
    (hret : retrieve user_input = Except.ok ctx)
    (hllm : complete (buildPrompt bot.system_prompt bot.format_chat_history
        ctx user_input) = Except.ok response) :
    RagChatbot.chat retrieve complete bot user_input =
      (Except.ok response,
        { bot with
          chat_history :=
            { bot.chat_history with
              messages := bot.chat_history.messages ++
                [{ role := "user", content := user_input },
                 { role := "assistant", content := response }] } }) ∧
    (RagChatbot.chat retrieve complete bot user_input).2.chat_history.messages.length
      = bot.chat_history.messages.length + 2 := by
  have hchat : RagChatbot.chat retrieve complete bot user_input =
      (Except.ok response,
        { bot with
          chat_history :=
            { bot.chat_history with
              messages := bot.chat_history.messages ++
                [{ role := "user", content := user_input },
                 { role := "assistant", content := response }] } }) := by
    simp [RagChatbot.chat, hret, hllm, ChatMemoryBuffer.put]
  refine ⟨hchat, ?_⟩
  rw [hchat]
  simp

/-- C2: a provider error during a chat turn — from the retrieval call or
from the LLM completion — propagates to the caller unchanged and leaves
the chatbot state (in particular the chat history) exactly as it was
before the call. -/
theorem chat_error_leaves_history_unchanged
    (retrieve complete : String → Except ProviderError String)
    (bot : RagChatbot) (user_input : String) (e : ProviderError) :
    (retrieve user_input = Except.error e →
      RagChatbot.chat retrieve complete bot user_input = (Except.error e, bot)) ∧
    (∀ ctx, retrieve user_input = Except.ok ctx →
      complete (buildPrompt bot.system_prompt bot.format_chat_history
        ctx user_input) = Except.error e →
      RagChatbot.chat retrieve complete bot user_input = (Except.error e, bot)) := by
  constructor
  · intro h
    simp [RagChatbot.chat, h]
  · intro ctx h1 h2
    simp [RagChatbot.chat, h1, h2]

/-- C8: `get_chat_history` returns one fresh {role, content} record per
stored message, in append order, leaves the session state untouched, and
no caller-side mutation of the returned copy can change what a subsequent
read of the session returns. -/
theorem get_chat_history_ordered_copy (bot : RagChatbot) :
    (bot.get_chat_history).1 =
      bot.chat_history.messages.map
        (fun msg => { role := msg.role, content := msg.content }) ∧
    (bot.get_chat_history).2 = bot ∧
    (∀ _mutate : List HistoryRecord → List HistoryRecord,
      (RagChatbot.get_chat_history (bot.get_chat_history).2).1 =
        bot.chat_history.messages.map
          (fun msg => { role := msg.role, content := msg.content })) :=
  ⟨rfl, rfl, fun _ => rfl⟩

/-- C9: in every session state, `clear_history` followed by
`get_chat_history` returns the empty sequence. -/
theorem clear_history_then_get_empty (bot : RagChatbot) :
    ((bot.clear_history).get_chat_history).1 = [] :=
  rfl

/-- C6: spec-modelled eviction — the session's buffer is created with a
token budget of 4096; appending a completed turn keeps a suffix of the
old-then-new message sequence (so oldest turns are evicted first and
newer turns are never removed before older ones), the surviving history
fits the 4096-token budget, and eviction is minimal (it stops as soon as
the history fits). -/
theorem history_bounded_by_token_budget
    (tok : ChatMessage → Nat) (buf : ChatMemoryBuffer) (role content : String)
    (hb : buf.token_limit = RagChatbot.init.chat_history.token_limit) :
    RagChatbot.init.chat_history.token_limit = 4096 ∧
    List.IsSuffix (buf.putBounded tok role content).messages
      (buf.messages ++ [{ role := role, content := content }]) ∧
    totalTokens tok (buf.putBounded tok role content).messages ≤ 4096 ∧
    ∀ s, List.IsSuffix s (buf.messages ++ [{ role := role, content := content }]) →
      totalTokens tok s ≤ 4096 →
      s.length ≤ (buf.putBounded tok role content).messages.length := by
  have hlim : buf.token_limit = 4096 := hb
  refine ⟨rfl, ?_, ?_, ?_⟩
  · exact evictOldest_suffix tok buf.token_limit _
  · rw [ChatMemoryBuffer.putBounded, hlim]
    exact evictOldest_fits tok 4096 _
  · intro s hs ht
    rw [ChatMemoryBuffer.putBounded, hlim]
    exact evictOldest_longest tok 4096 _ s hs ht

/-- C3: the document loader raises FileNotFoundError when the corpus
directory does not exist, ValueError (empty corpus) when it exists but
holds no files, and raises neither — returning the loaded documents —
when it exists and is non-empty. -/
theorem load_documents_trichotomy (listDir : String → Option (List String))
    (reader : String → List Document) (ix : DocumentIndexer) :
    (listDir ix.data_dir = none →
      ix.load_documents listDir reader =
        Except.error (IndexError.notFound
          ("El directorio " ++ ix.data_dir ++ " no existe"))) ∧
    (listDir ix.data_dir = some [] →
      ix.load_documents listDir reader =
        Except.error (IndexError.emptyCorpus
          ("El directorio " ++ ix.data_dir ++ " está vacío. Por favor, añade documentos."))) ∧
    (∀ entry entries, listDir ix.data_dir = some (entry :: entries) →
      ix.load_documents listDir reader = Except.ok (reader ix.data_dir)) := by
  refine ⟨?_, ?_, ?_⟩
  · intro h
    simp [DocumentIndexer.load_documents, h]
  · intro h
    simp [DocumentIndexer.load_documents, h]
  · intro entry entries h
    simp [DocumentIndexer.load_documents, h]

/-- C4: on a missing or empty corpus directory, `create_index` raises the
corresponding error before any index is built, the whole indexer state —
in particular the unset stored index — is left untouched, and a
subsequent `save_index` on that state writes nothing to disk and raises
instead: no partial index is ever persisted. -/
theorem create_index_aborts_on_bad_corpus
    (listDir : String → Option (List String)) (reader : String → List Document)
    (from_documents : List Document → VectorStoreIndex)
    (ix : DocumentIndexer) (persist_dir : String) (st : Storage)
    (hunset : ix.index = none) :
    (listDir ix.data_dir = none →
      ix.create_index listDir reader from_documents =
        (Except.error (IndexError.notFound
          ("El directorio " ++ ix.data_dir ++ " no existe")), ix)) ∧
    (listDir ix.data_dir = some [] →
      ix.create_index listDir reader from_documents =
        (Except.error (IndexError.emptyCorpus
          ("El directorio " ++ ix.data_dir ++ " está vacío. Por favor, añade documentos.")), ix)) ∧
    (∀ e, (ix.create_index listDir reader from_documents).1 = Except.error e →
      (ix.create_index listDir reader from_documents).2.index = none ∧
      (((ix.create_index listDir reader from_documents).2.save_index persist_dir st).2 = st) ∧
      ((ix.create_index listDir reader from_documents).2.save_index persist_dir st).1
        = Except.error (IndexError.noIndex
            "No hay un índice para guardar. Ejecuta create_index primero.")) := by
  refine ⟨?_, ?_, ?_⟩
  · intro h
    simp [DocumentIndexer.create_index, DocumentIndexer.load_documents, h]
  · intro h
    simp [DocumentIndexer.create_index, DocumentIndexer.load_documents, h]
  · intro e he
    cases hld : ix.load_documents listDir reader with
    | error e2 =>
      have hci : ix.create_index listDir reader from_documents = (Except.error e2, ix) := by
        simp [DocumentIndexer.create_index, hld]
      rw [hci]
      exact ⟨hunset, by simp [DocumentIndexer.save_index, hunset],
        by simp [DocumentIndexer.save_index, hunset]⟩
    | ok docs =>
      have hok : (ix.create_index listDir reader from_documents).1
          = Except.ok (from_documents docs) := by
        simp [DocumentIndexer.create_index, hld]
      rw [hok] at he
      exact absurd he (by simp)

/-- C5: `load_index` raises FileNotFoundError when the persist path does
not exist, leaving the indexer untouched, and the chatbot-construction
flow then aborts with no chatbot; when the path exists, the loaded index
is returned and stored whole — never a partially-populated one. -/
theorem load_index_missing_path_aborts (pathExists : String → Bool)
    (loadFromStorage : String → VectorStoreIndex)
    (ix : DocumentIndexer) (data_dir persist_dir : String) :
    (pathExists persist_dir = false →
      ix.load_index pathExists loadFromStorage persist_dir =
        (Except.error (IndexError.notFound
          ("No se encontró ningún índice en " ++ persist_dir)), ix) ∧
      load_chatbot pathExists loadFromStorage data_dir persist_dir = none) ∧
    (pathExists persist_dir = true →
      ix.load_index pathExists loadFromStorage persist_dir =
        (Except.ok (loadFromStorage persist_dir),
         { ix with index := some (loadFromStorage persist_dir) })) := by
  constructor
  · intro h
    constructor
    · simp [DocumentIndexer.load_index, h]
    · simp [load_chatbot, DocumentIndexer.load_index, h]
  · intro h
    simp [DocumentIndexer.load_index, h]

/-- C10: `save_index` with no stored index raises ValueError with a
non-empty human-readable message and leaves the disk untouched; with a
stored index it succeeds, the persist directory exists afterwards
(created if needed) and the index is persisted under it. -/
theorem save_index_requires_index (ix : DocumentIndexer)
    (persist_dir : String) (st : Storage) :
    (ix.index = none →
      ix.save_index persist_dir st =
        (Except.error (IndexError.noIndex
          "No hay un índice para guardar. Ejecuta create_index primero."), st) ∧
      "No hay un índice para guardar. Ejecuta create_index primero." ≠ "") ∧
    (∀ index, ix.index = some index →
      (ix.save_index persist_dir st).1 = Except.ok () ∧
      persist_dir ∈ (ix.save_index persist_dir st).2.dirs ∧
      (persist_dir, index) ∈ (ix.save_index persist_dir st).2.stores) := by
  constructor
  · intro h
    refine ⟨by simp [DocumentIndexer.save_index, h], by decide⟩
  · intro index h
    refine ⟨by simp [DocumentIndexer.save_index, h], ?_, ?_⟩
    · by_cases hmem : persist_dir ∈ st.dirs <;>
        simp [DocumentIndexer.save_index, h, hmem]
    · by_cases hmem : persist_dir ∈ st.dirs <;>
        simp [DocumentIndexer.save_index, h, hmem]

set_option maxRecDepth 10000

/-- C7 (counterexample to the claim as stated): for a retrieved chunk of
101 characters the debug view's preview is not the first 100 characters
of the chunk text (the code appends an ellipsis marker), and for a chunk
of 103 characters whose last three characters are "..." the preview
equals the full contents of that longer chunk. -/
theorem retrieval_preview_counterexample :
    (get_retrieval_context
        (fun _ => [{ score := some (0 : Int),
                     text := String.mk (List.replicate 101 'a') }]) "q").nodes_summary ≠
      [{ score := some (0 : Int),
         text_preview := (String.mk (List.replicate 101 'a')).take 100 }] ∧
    (get_retrieval_context
        (fun _ => [{ score := some (0 : Int),
                     text := String.mk (List.replicate 100 'a') ++ "..." }]) "q").nodes_summary =
      [{ score := some (0 : Int),
         text_preview := String.mk (List.replicate 100 'a') ++ "..." }] ∧
    100 < (String.mk (List.replicate 100 'a') ++ "...").length := by
  decide

/-- C7 (amended): the debug view reports the number of retrieved nodes
and, per retrieved node in order, the raw score and a text preview that
is the full chunk text when it is 100 characters or shorter and the
first 100 characters followed by the ellipsis marker "..." otherwise. -/
theorem retrieval_context_preview (α : Type)
    (retrieve_nodes : String → List (NodeWithScore α)) (query_text : String) :
    (get_retrieval_context retrieve_nodes query_text).num_nodes_retrieved
      = (retrieve_nodes query_text).length ∧
    (get_retrieval_context retrieve_nodes query_text).nodes_summary.length
      = (retrieve_nodes query_text).length ∧
    ∀ i (h : i < (retrieve_nodes query_text).length)
      (h2 : i < (get_retrieval_context retrieve_nodes query_text).nodes_summary.length),
      ((get_retrieval_context retrieve_nodes query_text).nodes_summary.get ⟨i, h2⟩).score
        = ((retrieve_nodes query_text).get ⟨i, h⟩).score ∧
      ((get_retrieval_context retrieve_nodes query_text).nodes_summary.get ⟨i, h2⟩).text_preview
        = (if 100 < ((retrieve_nodes query_text).get ⟨i, h⟩).text.length
           then ((retrieve_nodes query_text).get ⟨i, h⟩).text.take 100 ++ "..."
           else ((retrieve_nodes query_text).get ⟨i, h⟩).text) := by
  refine ⟨rfl, by simp [get_retrieval_context], ?_⟩
  intro i h h2
  constructor
  · simp [get_retrieval_context, List.getElem_map]
  · simp [get_retrieval_context, List.getElem_map]

/-! ## Concrete witnesses -/

/-- Witness for C1 at a concrete session and concrete succeeding oracles. -/
theorem chat_success_appends_two_turns_witness :
    RagChatbot.chat (fun _ => Except.ok "contexto") (fun _ => Except.ok "respuesta")
      RagChatbot.init "hola" =
      (Except.ok "respuesta",
        { RagChatbot.init with
          chat_history :=
            { RagChatbot.init.chat_history with
              messages := RagChatbot.init.chat_history.messages ++
                [{ role := "user", content := "hola" },
                 { role := "assistant", content := "respuesta" }] } }) ∧
    (RagChatbot.chat (fun _ => Except.ok "contexto") (fun _ => Except.ok "respuesta")
      RagChatbot.init "hola").2.chat_history.messages.length
      = RagChatbot.init.chat_history.messages.length + 2 :=
  chat_success_appends_two_turns (fun _ => Except.ok "contexto")
    (fun _ => Except.ok "respuesta") RagChatbot.init "hola" "contexto" "respuesta" rfl rfl

/-- Witness for C2 at a concrete session and a concrete failing
retrieval oracle. -/
theorem chat_error_leaves_history_unchanged_witness :
    RagChatbot.chat (fun _ => Except.error (ProviderError.failure "red caída"))
      (fun _ => Except.ok "respuesta") RagChatbot.init "hola" =
      (Except.error (ProviderError.failure "red caída"), RagChatbot.init) :=
  (chat_error_leaves_history_unchanged
    (fun _ => Except.error (ProviderError.failure "red caída"))
    (fun _ => Except.ok "respuesta") RagChatbot.init "hola"
    (ProviderError.failure "red caída")).1 rfl

/-- Witness for C3 at a concrete indexer and three concrete filesystem
oracles: missing directory, empty directory, non-empty directory. -/
theorem load_documents_trichotomy_witness :
    (DocumentIndexer.init "data" "idx").load_documents (fun _ => none) (fun _ => []) =
      Except.error (IndexError.notFound ("El directorio " ++ "data" ++ " no existe")) ∧
    (DocumentIndexer.init "data" "idx").load_documents (fun _ => some []) (fun _ => []) =
      Except.error (IndexError.emptyCorpus
        ("El directorio " ++ "data" ++ " está vacío. Por favor, añade documentos.")) ∧
    (DocumentIndexer.init "data" "idx").load_documents (fun _ => some ["a.txt"])
        (fun _ => [{ text := "contenido" }]) =
      Except.ok [{ text := "contenido" }] :=
  ⟨(load_documents_trichotomy (fun _ => none) (fun _ => [])
      (DocumentIndexer.init "data" "idx")).1 rfl,
   (load_documents_trichotomy (fun _ => some []) (fun _ => [])
      (DocumentIndexer.init "data" "idx")).2.1 rfl,
   (load_documents_trichotomy (fun _ => some ["a.txt"]) (fun _ => [{ text := "contenido" }])
      (DocumentIndexer.init "data" "idx")).2.2 "a.txt" [] rfl⟩

/-- Witness for C4 at a concrete fresh indexer over an empty corpus
directory and an empty disk. -/
theorem create_index_aborts_on_bad_corpus_witness :
    (DocumentIndexer.init "data" "idx").create_index (fun _ => some [])
        (fun _ => []) (fun _ => { id := 0 }) =
      (Except.error (IndexError.emptyCorpus
        ("El directorio " ++ "data" ++ " está vacío. Por favor, añade documentos.")),
       DocumentIndexer.init "data" "idx") ∧
    ((DocumentIndexer.init "data" "idx").create_index (fun _ => some [])
        (fun _ => []) (fun _ => { id := 0 })).2.index = none ∧
    ((((DocumentIndexer.init "data" "idx").create_index (fun _ => some [])
        (fun _ => []) (fun _ => { id := 0 })).2.save_index "./storage"
        { dirs := [], stores := [] }).2 = { dirs := [], stores := [] }) := by
  have h := create_index_aborts_on_bad_corpus (fun _ => some []) (fun _ => [])
    (fun _ => { id := 0 }) (DocumentIndexer.init "data" "idx") "./storage"
    { dirs := [], stores := [] } rfl
  have heq := h.2.1 rfl
  have h3 := h.2.2
    (IndexError.emptyCorpus
      ("El directorio " ++ "data" ++ " está vacío. Por favor, añade documentos."))
    (by rw [heq]; rfl)
  exact ⟨heq, h3.1, h3.2.1⟩

/-- Witness for C5: a missing persist path at a concrete indexer (the
construction flow yields no chatbot), and the success case at a concrete
existing path. -/
theorem load_index_missing_path_aborts_witness :
    ((DocumentIndexer.init "data" "idx").load_index (fun _ => false)
        (fun _ => { id := 7 }) "./storage" =
      (Except.error (IndexError.notFound
        ("No se encontró ningún índice en " ++ "./storage")),
       DocumentIndexer.init "data" "idx") ∧
     load_chatbot (fun _ => false) (fun _ => { id := 7 }) "data" "./storage" = none) ∧
    (DocumentIndexer.init "data" "idx").load_index (fun _ => true)
        (fun _ => { id := 7 }) "./storage" =
      (Except.ok { id := 7 },
       { DocumentIndexer.init "data" "idx" with index := some { id := 7 } }) :=
  ⟨(load_index_missing_path_aborts (fun _ => false) (fun _ => { id := 7 })
      (DocumentIndexer.init "data" "idx") "data" "./storage").1 rfl,
   (load_index_missing_path_aborts (fun _ => true) (fun _ => { id := 7 })
      (DocumentIndexer.init "data" "idx") "data" "./storage").2 rfl⟩

/-- Witness for C6 at a concrete tokenizer (content length), the fresh
4096-token buffer of a fresh session, and one concrete appended turn. -/
theorem history_bounded_by_token_budget_witness :
    totalTokens (fun msg => msg.content.length)
      ((ChatMemoryBuffer.from_defaults 4096).putBounded
        (fun msg => msg.content.length) "user" "hola").messages ≤ 4096 ∧
    List.IsSuffix
      ((ChatMemoryBuffer.from_defaults 4096).putBounded
        (fun msg => msg.content.length) "user" "hola").messages
      ((ChatMemoryBuffer.from_defaults 4096).messages ++
        [{ role := "user", content := "hola" }]) :=
  ⟨(history_bounded_by_token_budget (fun msg => msg.content.length)
      (ChatMemoryBuffer.from_defaults 4096) "user" "hola" rfl).2.2.1,
   (history_bounded_by_token_budget (fun msg => msg.content.length)
      (ChatMemoryBuffer.from_defaults 4096) "user" "hola" rfl).2.1⟩

/-- Witness for C10 at a concrete fresh indexer (no stored index) and a
concrete indexer holding an index, over an empty disk. -/
theorem save_index_requires_index_witness :
    ((DocumentIndexer.init "data" "idx").save_index "./storage"
        { dirs := [], stores := [] } =
      (Except.error (IndexError.noIndex
        "No hay un índice para guardar. Ejecuta create_index primero."),
       { dirs := [], stores := [] }) ∧
     "No hay un índice para guardar. Ejecuta create_index primero." ≠ "") ∧
    (({ data_dir := "data", index_name := "idx", index := some { id := 3 } } :
          DocumentIndexer).save_index "./storage"
        { dirs := [], stores := [] }).1 = Except.ok () ∧
    "./storage" ∈
      (({ data_dir := "data", index_name := "idx", index := some { id := 3 } } :
          DocumentIndexer).save_index "./storage"
        { dirs := [], stores := [] }).2.dirs ∧
    ("./storage", ({ id := 3 } : VectorStoreIndex)) ∈
      (({ data_dir := "data", index_name := "idx", index := some { id := 3 } } :
          DocumentIndexer).save_index "./storage"
        { dirs := [], stores := [] }).2.stores :=
  ⟨(save_index_requires_index (DocumentIndexer.init "data" "idx") "./storage"
      { dirs := [], stores := [] }).1 rfl,
   (save_index_requires_index
      { data_dir := "data", index_name := "idx", index := some { id := 3 } }
      "./storage" { dirs := [], stores := [] }).2 { id := 3 } rfl⟩

/-- Witness for the amended C7 at a concrete short chunk: the preview of
a 4-character chunk is the chunk itself. -/
theorem retrieval_context_preview_witness :
    ((get_retrieval_context
        (fun _ => [{ score := some (2 : Int), text := "hola" }])
        "q").nodes_summary.get ⟨0, by decide⟩).text_preview = "hola" := by
  have h := (retrieval_context_preview Int
    (fun _ => [{ score := some (2 : Int), text := "hola" }]) "q").2.2 0
    (by decide) (by decide)
  rw [h.2]
  decide

end MiChatbotRag
